import Mathlib

/-!
# Bota Systems force/torque sensor framing (AP_ThrustSensor_BotaSys.cpp)

A shallow embedding of `libraries/AP_ThrustSensor/AP_ThrustSensor_BotaSys.cpp`:
the three CRC-16 routines, the frame reader `BotaForceTorqueSensorComm`
(its constructor, `isCrcOk`, `checkSync`, `readFrame`) and the adapter
`AP_ThrustSensor_BotaSys::get_reading`.

Conventions.
* A `uint8_t` is a `Fin 256`; a `uint16_t` / `uint32_t` is a `Nat`, reduced
  `% 2^16` / `% 2^32` at every assignment of the source.
* A `float` is carried as its 32-bit pattern: the code only copies floats.
* Methods that mutate the object take the object and return the new one.
-/

namespace BotaSys

/-- One `uint8_t`. -/
abbrev Byte := Fin 256

/-! ## CRC engine -/

/-- Body of the inner `for` loop of `crc16_mcrf4xx`:
`crc = crc & 0x0001 ? (crc >> 1) ^ 0x8408 : crc >> 1;` stored to a `uint16_t`. -/
def mcrf4xx_bit (crc : Nat) : Nat :=
  (if crc &&& 0x0001 ≠ 0 then (crc >>> 1) ^^^ 0x8408 else crc >>> 1) % 65536

/-- The `while (len--)` loop of `crc16_mcrf4xx`: `crc ^= *data++;` then eight
rounds of the inner loop. -/
def crc16_mcrf4xx_loop : Nat → List Byte → Nat
  | crc, [] => crc
  | crc, b :: rest =>
    crc16_mcrf4xx_loop (Nat.iterate mcrf4xx_bit 8 ((crc ^^^ b.val) % 65536)) rest

/-- The function `crc16_mcrf4xx(data, len)`; `data` is the `len` bytes pointed to. -/
def crc16_mcrf4xx (data : List Byte) : Nat :=
  crc16_mcrf4xx_loop 0xffff data

/-- Body of the inner `for` loop of `crc16_ccitt_false`:
`crc = crc & 0x8000 ? (crc << 1) ^ 0x1021 : crc << 1;` stored to a `uint16_t`. -/
def ccitt_false_bit (crc : Nat) : Nat :=
  (if crc &&& 0x8000 ≠ 0 then (crc <<< 1) ^^^ 0x1021 else crc <<< 1) % 65536

/-- The `while (len--)` loop of `crc16_ccitt_false`: `crc ^= *data++ << 8;` then
eight rounds of the inner loop. -/
def crc16_ccitt_false_loop : Nat → List Byte → Nat
  | crc, [] => crc
  | crc, b :: rest =>
    crc16_ccitt_false_loop
      (Nat.iterate ccitt_false_bit 8 ((crc ^^^ (b.val <<< 8)) % 65536)) rest

/-- The function `crc16_ccitt_false(data, len)`. -/
def crc16_ccitt_false (data : List Byte) : Nat :=
  crc16_ccitt_false_loop 0xffff data

/-- Body of the inner `for` loop of `crc16_x25`:
`crc = crc & 0x0001 ? (crc >> 1) ^ 0x8408 : crc >> 1;` stored to a `uint16_t`. -/
def x25_bit (crc : Nat) : Nat :=
  (if crc &&& 0x0001 ≠ 0 then (crc >>> 1) ^^^ 0x8408 else crc >>> 1) % 65536

/-- The `while (len--)` loop of `crc16_x25`: `crc ^= *data++ << 0;` then eight
rounds of the inner loop. -/
def crc16_x25_loop : Nat → List Byte → Nat
  | crc, [] => crc
  | crc, b :: rest =>
    crc16_x25_loop (Nat.iterate x25_bit 8 ((crc ^^^ (b.val <<< 0)) % 65536)) rest

/-- The function `crc16_x25(data, len)`: the loop, then `return crc ^ 0xffff;`
converted to the `uint16_t` return type. -/
def crc16_x25 (data : List Byte) : Nat :=
  (crc16_x25_loop 0xffff data ^^^ 0xffff) % 65536

/-! ## Frame codec -/

/-- Modelled from the spec: the layout of `frame` (`RxFrame`), declared in
`AP_ThrustSensor_BotaSys.h`, which is not among the sources. Section 3 fixes a
one-byte header at offset 0, a payload `frame.data` holding the status word and
the force/torque values, and a 16-bit little-endian trailer in the last two
bytes. The payload size and the offsets inside it are parameters. -/
structure FrameLayout where
  /-- Size in bytes of the payload: `sizeof(frame.data)` -/
  dataLen : Nat
  /-- Offset of `status.val` (a 16-bit unsigned word) inside `frame.data` -/
  statusOff : Nat
  /-- Offset of `forces[0]` (32-bit floats) inside `frame.data` -/
  forcesOff : Nat
deriving DecidableEq, Repr

/-- The frame length `L`: `sizeof(frame)`, header + payload + trailer. -/
def sizeofFrame (lay : FrameLayout) : Nat :=
  1 + lay.dataLen + 2

/-- The serial frame of the Bota Systems sensors: status word, six floats,
a 32-bit timestamp and a float temperature (34 bytes) between the header and
the CRC, 37 bytes in all. Used for concrete evaluations only; the theorems
hold for every layout. -/
def bota_layout : FrameLayout :=
  { dataLen := 34, statusOff := 0, forcesOff := 2 }

/-- Byte `i` of a buffer, as a number. -/
def byteAt (buf : List Byte) (i : Nat) : Nat :=
  (buf.getD i 0).val

/-- The field `frame.header`. -/
def frame_header (frame : List Byte) : Nat :=
  byteAt frame 0

/-- The bytes `frame.data.bytes[0 .. sizeof(frame.data))`. -/
def frame_data (lay : FrameLayout) (frame : List Byte) : List Byte :=
  (frame.drop 1).take lay.dataLen

/-- The field `frame.crc`: the last two bytes, little-endian. -/
def frame_crc (lay : FrameLayout) (frame : List Byte) : Nat :=
  byteAt frame (1 + lay.dataLen) + 256 * byteAt frame (1 + lay.dataLen + 1)

/-- The field `frame.data.status.val`: sixteen bits, little-endian, unsigned. -/
def frame_status_val (lay : FrameLayout) (frame : List Byte) : Nat :=
  byteAt frame (1 + lay.statusOff) + 256 * byteAt frame (1 + lay.statusOff + 1)

/-- The field `frame.data.forces[i]`, as the 32-bit pattern of the float
(little-endian). -/
def frame_forces (lay : FrameLayout) (frame : List Byte) (i : Nat) : Nat :=
  byteAt frame (1 + lay.forcesOff + 4 * i)
    + 256 * byteAt frame (1 + lay.forcesOff + 4 * i + 1)
    + 65536 * byteAt frame (1 + lay.forcesOff + 4 * i + 2)
    + 16777216 * byteAt frame (1 + lay.forcesOff + 4 * i + 3)

/-! ## Frame reader (`BotaForceTorqueSensorComm`) -/

/-- The enumeration `ReadFrameRes`. -/
inductive ReadFrameRes where
  | NO_FRAME
  | VALID_FRAME
  | NOT_VALID_FRAME
  | NOT_ALLIGNED_FRAME
deriving DecidableEq, Repr

/-- The object `BotaForceTorqueSensorComm` together with the transport it reads:
`_synced`, `_crc_err_count` (`uint32_t`), the buffer `frame.bytes`, and the bytes
buffered by the serial port, oldest first. -/
structure Comm where
  synced : Bool
  crc_err_count : Nat
  frame : List Byte
  serial : List Byte
deriving DecidableEq, Repr

/-- Modelled from the spec: `serialAvailable()`, declared in the absent header;
the transport contract `available()` of section 6, the number of bytes
currently buffered. -/
def serialAvailable (c : Comm) : Nat :=
  c.serial.length

/-- Modelled from the spec: `serialReadBytes(frame.bytes, sizeof(frame))`,
declared in the absent header; the transport contract `read_exact(n)` of
section 6: consumes exactly `n` bytes, here into the frame buffer. -/
def serialReadFrame (lay : FrameLayout) (c : Comm) : Comm :=
  { c with frame := c.serial.take (sizeofFrame lay),
           serial := c.serial.drop (sizeofFrame lay) }

/-- Modelled from the spec: `serialReadBytes(&dummy, sizeof(dummy))`, the same
transport contract for the one-byte local `dummy`. -/
def serialReadDummy (c : Comm) : Comm :=
  { c with serial := c.serial.drop 1 }

/-- The method `isCrcOk()`: compares `crc16_x25` of the payload with `frame.crc`;
on a mismatch `_crc_err_count += 1` (32-bit). -/
def isCrcOk (lay : FrameLayout) (c : Comm) : Bool × Comm :=
  if crc16_x25 (frame_data lay c.frame) = frame_crc lay c.frame then
    (true, c)
  else
    (false, { c with crc_err_count := (c.crc_err_count + 1) % 4294967296 })

/-- The method `checkSync()`. When not synced, `_crc_err_count` is cleared and
`isCrcOk()` is called whatever the header is (the operator is `&`). -/
def checkSync (lay : FrameLayout) (c : Comm) : Bool × Comm :=
  if c.synced then
    let c1 := { c with synced := decide (frame_header c.frame = 0xAA) }
    (c1.synced, c1)
  else
    let c1 := { c with crc_err_count := 0 }
    let hdr := decide (frame_header c1.frame = 0xAA)
    let r := isCrcOk lay c1
    let c2 := { r.2 with synced := hdr && r.1 }
    (c2.synced, c2)

/-- The method `readFrame()`. -/
def readFrame (lay : FrameLayout) (c : Comm) : ReadFrameRes × Comm :=
  if sizeofFrame lay ≤ serialAvailable c then
    let c1 := serialReadFrame lay c
    let r := checkSync lay c1
    if r.1 then
      let k := isCrcOk lay r.2
      if k.1 then (ReadFrameRes.VALID_FRAME, k.2)
      else (ReadFrameRes.NOT_VALID_FRAME, k.2)
    else
      if serialAvailable r.2 ≠ 0 then
        (ReadFrameRes.NOT_ALLIGNED_FRAME, serialReadDummy r.2)
      else
        (ReadFrameRes.NOT_ALLIGNED_FRAME, r.2)
  else
    (ReadFrameRes.NO_FRAME, c)

/-- The constructor `BotaForceTorqueSensorComm()`. Its body is the single
statement `_synced = false;` and it has no member-initialiser list. The
argument is the object as the body finds it; the body touches neither
`_crc_err_count` nor `frame`. -/
def BotaForceTorqueSensorComm (storage : Comm) : Comm :=
  { storage with synced := false }

/-- The reader after `n` successive calls of `readFrame`. -/
def readFrame_iter (lay : FrameLayout) : Nat → Comm → Comm
  | 0, c => c
  | n + 1, c => (readFrame lay (readFrame_iter lay n c)).2

/-! ## Reading adapter (`AP_ThrustSensor_BotaSys`) -/

/-- A text handed to `gcs().send_text`. -/
inductive GcsText where
  /-- The text `"status: %x"` with the status word -/
  | status (val : Nat)
  /-- The text `"No valid frame. crc count: %d"` with `get_crc_count()` -/
  | crc_count (n : Nat)
  /-- The text `"lost sync, trying to reconnect"` -/
  | lost_sync
deriving DecidableEq, Repr

/-- The fields of `state` that `get_reading` touches; floats as bit patterns. -/
structure ThrustState where
  force_n : Nat
  offset_flag : Bool
  offset_n : Nat
deriving DecidableEq, Repr

/-- The driver object: `sensorComm`, `state`, and the texts sent so far. -/
structure Driver where
  sensorComm : Comm
  state : ThrustState
  gcs : List GcsText
deriving DecidableEq, Repr

/-- The method `get_reading(float &reading_m)`: the returned `bool`, the driver
afterwards and the value of `reading_m` afterwards. The body of
`if (state.offset_flag)` is empty: both of its statements are commented out. -/
def get_reading (lay : FrameLayout) (d : Driver) (reading_m : Nat) :
    Bool × Driver × Nat :=
  let r := readFrame lay d.sensorComm
  match r.1 with
  | ReadFrameRes.VALID_FRAME =>
    if frame_status_val lay r.2.frame > 0 then
      (false,
        { d with sensorComm := r.2,
                 gcs := d.gcs ++ [GcsText.status (frame_status_val lay r.2.frame)] },
        reading_m)
    else
      let st := { d.state with force_n := frame_forces lay r.2.frame 2 }
      (true, { d with sensorComm := r.2, state := st }, st.force_n)
  | ReadFrameRes.NOT_VALID_FRAME =>
    (false,
      { d with sensorComm := r.2,
               gcs := d.gcs ++ [GcsText.crc_count r.2.crc_err_count] },
      reading_m)
  | ReadFrameRes.NOT_ALLIGNED_FRAME =>
    (false, { d with sensorComm := r.2, gcs := d.gcs ++ [GcsText.lost_sync] }, reading_m)
  | ReadFrameRes.NO_FRAME =>
    (false, { d with sensorComm := r.2 }, reading_m)


/-! ## Concrete inputs -/

/-- Scenario A, the payload in the Bota layout: status word 0, `forces[2]` =
3.25 (bit pattern 0x40500000, bytes 10 to 13), every other byte 0. -/
def payload_A : List Byte :=
  [0, 0] ++ List.replicate 8 0 ++ [0x00, 0x00, 0x50, 0x40] ++ List.replicate 20 0

/-- Scenario A: one well-formed frame. Header 0xAA, `payload_A`, trailer
0x9916 = `crc16_x25 payload_A`, low byte first. -/
def frame_A : List Byte :=
  [0xAA] ++ payload_A ++ [0x16, 0x99]

/-- Scenario B: frame A with bit 0 of the last trailer byte flipped. -/
def frame_B : List Byte :=
  frame_A.take 36 ++ [0x98]

/-- Scenario C: frame A with the header byte replaced by 0x00. -/
def frame_C : List Byte :=
  0x00 :: frame_A.drop 1

/-- An Unsynced reader with crc_error_count 7, an empty frame buffer and frame A
buffered by the transport. -/
def comm_unsynced_A : Comm :=
  { synced := false, crc_err_count := 7, frame := [], serial := frame_A }

/-- A Synced reader with crc_error_count 3 and frame B buffered. -/
def comm_synced_B : Comm :=
  { synced := true, crc_err_count := 3, frame := [], serial := frame_B }

/-- A Synced reader whose transport holds exactly one frame, frame C. -/
def comm_synced_C : Comm :=
  { synced := true, crc_err_count := 3, frame := [], serial := frame_C }

/-- A Synced reader whose transport holds frame C followed by frame A. -/
def comm_synced_CA : Comm :=
  { synced := true, crc_err_count := 3, frame := [], serial := frame_C ++ frame_A }

/-- A Synced reader that decoded frame A earlier and now has only the first
36 bytes (L - 1) of the next frame buffered. -/
def comm_starved : Comm :=
  { synced := true, crc_err_count := 3, frame := frame_A, serial := frame_A.take 36 }

/-- A driver whose reader is `comm_unsynced_A`; its stored reading is 1.0
(0x3F800000), the offset flag is set and the offset is 2.0 (0x40000000). -/
def driver_A : Driver :=
  { sensorComm := comm_unsynced_A,
    state := { force_n := 0x3F800000, offset_flag := true, offset_n := 0x40000000 },
    gcs := [] }

/-- A driver whose reader is `comm_synced_B`, with the same stored values. -/
def driver_B : Driver :=
  { sensorComm := comm_synced_B,
    state := { force_n := 0x3F800000, offset_flag := true, offset_n := 0x40000000 },
    gcs := [] }

/-- An Unsynced reader with crc_error_count 9 whose transport holds frame C
followed by frame A. -/
def comm_unsynced_CA : Comm :=
  { synced := false, crc_err_count := 9, frame := [], serial := frame_C ++ frame_A }

/-- An Unsynced reader with crc_error_count 9 and frame B buffered. -/
def comm_unsynced_B : Comm :=
  { synced := false, crc_err_count := 9, frame := [], serial := frame_B }

/-- A stream of three copies of frame A (111 bytes). -/
def stream_AAA : List (List Byte) :=
  [frame_A, frame_A, frame_A]

/-- An Unsynced reader that starts 36 bytes into the first frame of
`stream_AAA`: 75 bytes are buffered, the last trailer byte of the first frame
and two whole frames. -/
def comm_midframe : Comm :=
  { synced := false, crc_err_count := 0, frame := [], serial := stream_AAA.flatten.drop 36 }

/-- Frame A with bit 0 of payload byte 12 flipped (0x50 becomes 0x51); header
and trailer are those of frame A. -/
def frame_A_flipped : List Byte :=
  [0xAA] ++ payload_A.set 12 0x51 ++ [0x16, 0x99]

/-- A Synced reader with crc_error_count 3 and `frame_A_flipped` buffered. -/
def comm_synced_flipped : Comm :=
  { synced := true, crc_err_count := 3, frame := [], serial := frame_A_flipped }

/-- The nine ASCII bytes `"123456789"`. -/
def check_input : List Byte :=
  [0x31, 0x32, 0x33, 0x34, 0x35, 0x36, 0x37, 0x38, 0x39]

/-! ## CRC lemmas -/

theorem mcrf4xx_bit_lt (crc : Nat) : mcrf4xx_bit crc < 65536 := by
  unfold mcrf4xx_bit
  exact Nat.mod_lt _ (by norm_num)

theorem x25_bit_eq_mcrf4xx_bit : x25_bit = mcrf4xx_bit := rfl

theorem iterate_mcrf4xx_bit_lt (crc : Nat) : Nat.iterate mcrf4xx_bit 8 crc < 65536 := by
  have h : Nat.iterate mcrf4xx_bit 8 crc = mcrf4xx_bit (Nat.iterate mcrf4xx_bit 7 crc) := by
    rw [← Function.iterate_succ_apply' mcrf4xx_bit 7 crc]
  rw [h]
  exact mcrf4xx_bit_lt _

theorem crc16_mcrf4xx_loop_lt (data : List Byte) :
    ∀ crc, crc < 65536 → crc16_mcrf4xx_loop crc data < 65536 := by
  induction data with
  | nil => intro crc h; simpa [crc16_mcrf4xx_loop] using h
  | cons b rest ih =>
    intro crc _
    simp only [crc16_mcrf4xx_loop]
    exact ih _ (iterate_mcrf4xx_bit_lt _)

theorem crc16_mcrf4xx_lt (data : List Byte) : crc16_mcrf4xx data < 65536 :=
  crc16_mcrf4xx_loop_lt data 0xffff (by norm_num)

theorem crc16_x25_loop_eq (data : List Byte) :
    ∀ crc, crc16_x25_loop crc data = crc16_mcrf4xx_loop crc data := by
  induction data with
  | nil => intro crc; rfl
  | cons b rest ih =>
    intro crc
    simp only [crc16_x25_loop, crc16_mcrf4xx_loop, Nat.shiftLeft_zero,
      x25_bit_eq_mcrf4xx_bit]
    exact ih _

theorem xor_ffff_lt (x : Nat) (h : x < 65536) : x ^^^ 0xffff < 65536 :=
  Nat.xor_lt_two_pow (n := 16) h (by norm_num)

theorem xor_ffff_ne (x : Nat) : x ^^^ 0xffff ≠ x := by
  intro h
  have h2 : (x ^^^ 0xffff) ^^^ x = x ^^^ x := by rw [h]
  rw [Nat.xor_comm x 0xffff, Nat.xor_assoc, Nat.xor_self, Nat.xor_zero] at h2
  exact absurd h2 (by norm_num)

/-! ## Claims on the CRC engine -/

/-- C9: on every byte sequence, the empty one included, `crc16_x25` is
`crc16_mcrf4xx` XOR `0xFFFF`, so the two functions never return the same value. -/
theorem crc16_x25_eq_compl_mcrf4xx (d : List Byte) :
    crc16_x25 d = crc16_mcrf4xx d ^^^ 0xFFFF ∧ crc16_x25 d ≠ crc16_mcrf4xx d := by
  have heq : crc16_x25 d = crc16_mcrf4xx d ^^^ 0xFFFF := by
    unfold crc16_x25
    rw [crc16_x25_loop_eq]
    exact Nat.mod_eq_of_lt (xor_ffff_lt _ (crc16_mcrf4xx_lt d))
  exact ⟨heq, by rw [heq]; exact xor_ffff_ne _⟩

set_option maxRecDepth 4000 in
/-- C10: on the ASCII bytes "123456789" the three routines return the catalogue
check values `0x6F91` (MCRF4XX), `0x29B1` (CCITT-FALSE) and `0x906E` (X-25),
each a 16-bit value. -/
theorem crc16_check_values :
    crc16_mcrf4xx check_input = 0x6F91 ∧
    crc16_ccitt_false check_input = 0x29B1 ∧
    crc16_x25 check_input = 0x906E := by
  refine ⟨?_, ?_, ?_⟩ <;> decide

/-! ## Frame reader lemmas -/

theorem readFrame_of_lt (lay : FrameLayout) (c : Comm)
    (h : serialAvailable c < sizeofFrame lay) :
    readFrame lay c = (ReadFrameRes.NO_FRAME, c) := by
  unfold readFrame
  rw [if_neg (Nat.not_le.mpr h)]

theorem length_drop_add (xs : List Byte) (k : Nat) (h : k ≤ xs.length) :
    (xs.drop k).length + k = xs.length := by
  rw [List.length_drop]
  omega

theorem isCrcOk_of_eq (lay : FrameLayout) (c : Comm)
    (h : crc16_x25 (frame_data lay c.frame) = frame_crc lay c.frame) :
    isCrcOk lay c = (true, c) := by
  unfold isCrcOk
  rw [if_pos h]

theorem isCrcOk_of_ne (lay : FrameLayout) (c : Comm)
    (h : crc16_x25 (frame_data lay c.frame) ≠ frame_crc lay c.frame) :
    isCrcOk lay c
      = (false, { c with crc_err_count := (c.crc_err_count + 1) % 4294967296 }) := by
  unfold isCrcOk
  rw [if_neg h]

theorem checkSync_synced (lay : FrameLayout) (c : Comm) (hs : c.synced = true) :
    checkSync lay c
      = (decide (frame_header c.frame = 0xAA),
         { c with synced := decide (frame_header c.frame = 0xAA) }) := by
  unfold checkSync
  rw [if_pos hs]

theorem checkSync_unsynced_crc_ok (lay : FrameLayout) (c : Comm) (hu : c.synced = false)
    (h : crc16_x25 (frame_data lay c.frame) = frame_crc lay c.frame) :
    checkSync lay c
      = (decide (frame_header c.frame = 0xAA),
         { c with crc_err_count := 0,
                  synced := decide (frame_header c.frame = 0xAA) }) := by
  unfold checkSync
  rw [if_neg (by simp [hu])]
  simp only []
  rw [isCrcOk_of_eq lay { c with crc_err_count := 0 } h]
  simp

theorem checkSync_unsynced_crc_bad (lay : FrameLayout) (c : Comm) (hu : c.synced = false)
    (h : crc16_x25 (frame_data lay c.frame) ≠ frame_crc lay c.frame) :
    checkSync lay c = (false, { c with crc_err_count := 1, synced := false }) := by
  unfold checkSync
  rw [if_neg (by simp [hu])]
  simp only []
  rw [isCrcOk_of_ne lay { c with crc_err_count := 0 } h]
  simp

/-- The state left by a call that reads a frame and reports it misaligned: the
frame bytes are consumed, then one more byte if one is buffered. -/
theorem readFrame_not_aligned (lay : FrameLayout) (c : Comm)
    (hn : sizeofFrame lay ≤ serialAvailable c)
    (r : Comm) (hr : checkSync lay (serialReadFrame lay c) = (false, r)) :
    readFrame lay c
      = (ReadFrameRes.NOT_ALLIGNED_FRAME, { r with serial := r.serial.drop 1 }) := by
  unfold readFrame
  rw [if_pos hn]
  simp only [hr, Bool.false_eq_true, if_false]
  by_cases ha : serialAvailable r = 0
  · have hnil : r.serial = [] := List.length_eq_zero.mp ha
    cases r
    simp_all
  · simp [ha, serialReadDummy]

/-- The state left by a call whose frame passes `checkSync`. -/
theorem readFrame_in_sync (lay : FrameLayout) (c : Comm)
    (hn : sizeofFrame lay ≤ serialAvailable c)
    (r : Comm) (hr : checkSync lay (serialReadFrame lay c) = (true, r)) :
    readFrame lay c
      = (if (isCrcOk lay r).1 then ReadFrameRes.VALID_FRAME
           else ReadFrameRes.NOT_VALID_FRAME, (isCrcOk lay r).2) := by
  unfold readFrame
  rw [if_pos hn]
  simp only [hr, if_true]
  split_ifs <;> rfl

theorem drop_one_drop (xs : List Byte) (k : Nat) :
    (xs.drop k).drop 1 = xs.drop (k + 1) := by
  rw [List.drop_drop, Nat.add_comm]

/-- An Unsynced reader meeting a frame with the right header and CRC. -/
theorem readFrame_unsynced_good (lay : FrameLayout) (c : Comm)
    (hu : c.synced = false) (hn : sizeofFrame lay ≤ serialAvailable c)
    (hh : frame_header (c.serial.take (sizeofFrame lay)) = 0xAA)
    (hc : crc16_x25 (frame_data lay (c.serial.take (sizeofFrame lay)))
      = frame_crc lay (c.serial.take (sizeofFrame lay))) :
    readFrame lay c
      = (ReadFrameRes.VALID_FRAME,
         { synced := true, crc_err_count := 0,
           frame := c.serial.take (sizeofFrame lay),
           serial := c.serial.drop (sizeofFrame lay) }) := by
  have hcs := checkSync_unsynced_crc_ok lay (serialReadFrame lay c) hu hc
  have hd : decide (frame_header (serialReadFrame lay c).frame = 0xAA) = true :=
    decide_eq_true hh
  rw [hd] at hcs
  rw [readFrame_in_sync lay c hn _ hcs, isCrcOk_of_eq lay _ hc]
  simp [serialReadFrame]

/-- An Unsynced reader meeting a frame whose CRC matches but whose header is
not 0xAA. -/
theorem readFrame_unsynced_bad_header (lay : FrameLayout) (c : Comm)
    (hu : c.synced = false) (hn : sizeofFrame lay ≤ serialAvailable c)
    (hh : frame_header (c.serial.take (sizeofFrame lay)) ≠ 0xAA)
    (hc : crc16_x25 (frame_data lay (c.serial.take (sizeofFrame lay)))
      = frame_crc lay (c.serial.take (sizeofFrame lay))) :
    readFrame lay c
      = (ReadFrameRes.NOT_ALLIGNED_FRAME,
         { synced := false, crc_err_count := 0,
           frame := c.serial.take (sizeofFrame lay),
           serial := c.serial.drop (sizeofFrame lay + 1) }) := by
  have hcs := checkSync_unsynced_crc_ok lay (serialReadFrame lay c) hu hc
  have hd : decide (frame_header (serialReadFrame lay c).frame = 0xAA) = false :=
    decide_eq_false hh
  rw [hd] at hcs
  rw [readFrame_not_aligned lay c hn _ hcs]
  simp [serialReadFrame, drop_one_drop]

/-- An Unsynced reader meeting a frame whose CRC does not match. -/
theorem readFrame_unsynced_bad_crc (lay : FrameLayout) (c : Comm)
    (hu : c.synced = false) (hn : sizeofFrame lay ≤ serialAvailable c)
    (hc : crc16_x25 (frame_data lay (c.serial.take (sizeofFrame lay)))
      ≠ frame_crc lay (c.serial.take (sizeofFrame lay))) :
    readFrame lay c
      = (ReadFrameRes.NOT_ALLIGNED_FRAME,
         { synced := false, crc_err_count := 1,
           frame := c.serial.take (sizeofFrame lay),
           serial := c.serial.drop (sizeofFrame lay + 1) }) := by
  have hcs := checkSync_unsynced_crc_bad lay (serialReadFrame lay c) hu hc
  rw [readFrame_not_aligned lay c hn _ hcs]
  simp [serialReadFrame, drop_one_drop]

/-- A Synced reader meeting a frame with the right header and CRC. -/
theorem readFrame_synced_good (lay : FrameLayout) (c : Comm)
    (hs : c.synced = true) (hn : sizeofFrame lay ≤ serialAvailable c)
    (hh : frame_header (c.serial.take (sizeofFrame lay)) = 0xAA)
    (hc : crc16_x25 (frame_data lay (c.serial.take (sizeofFrame lay)))
      = frame_crc lay (c.serial.take (sizeofFrame lay))) :
    readFrame lay c
      = (ReadFrameRes.VALID_FRAME,
         { synced := true, crc_err_count := c.crc_err_count,
           frame := c.serial.take (sizeofFrame lay),
           serial := c.serial.drop (sizeofFrame lay) }) := by
  have hcs := checkSync_synced lay (serialReadFrame lay c) hs
  have hd : decide (frame_header (serialReadFrame lay c).frame = 0xAA) = true :=
    decide_eq_true hh
  rw [hd] at hcs
  rw [readFrame_in_sync lay c hn _ hcs, isCrcOk_of_eq lay _ hc]
  simp [serialReadFrame]

/-- A Synced reader meeting a frame with the right header and a wrong CRC. -/
theorem readFrame_synced_bad_crc (lay : FrameLayout) (c : Comm)
    (hs : c.synced = true) (hn : sizeofFrame lay ≤ serialAvailable c)
    (hh : frame_header (c.serial.take (sizeofFrame lay)) = 0xAA)
    (hc : crc16_x25 (frame_data lay (c.serial.take (sizeofFrame lay)))
      ≠ frame_crc lay (c.serial.take (sizeofFrame lay))) :
    readFrame lay c
      = (ReadFrameRes.NOT_VALID_FRAME,
         { synced := true, crc_err_count := (c.crc_err_count + 1) % 4294967296,
           frame := c.serial.take (sizeofFrame lay),
           serial := c.serial.drop (sizeofFrame lay) }) := by
  have hcs := checkSync_synced lay (serialReadFrame lay c) hs
  have hd : decide (frame_header (serialReadFrame lay c).frame = 0xAA) = true :=
    decide_eq_true hh
  rw [hd] at hcs
  rw [readFrame_in_sync lay c hn _ hcs, isCrcOk_of_ne lay _ hc]
  simp [serialReadFrame]

/-- A Synced reader meeting a frame whose header is not 0xAA. -/
theorem readFrame_synced_bad_header (lay : FrameLayout) (c : Comm)
    (hs : c.synced = true) (hn : sizeofFrame lay ≤ serialAvailable c)
    (hh : frame_header (c.serial.take (sizeofFrame lay)) ≠ 0xAA) :
    readFrame lay c
      = (ReadFrameRes.NOT_ALLIGNED_FRAME,
         { synced := false, crc_err_count := c.crc_err_count,
           frame := c.serial.take (sizeofFrame lay),
           serial := c.serial.drop (sizeofFrame lay + 1) }) := by
  have hcs := checkSync_synced lay (serialReadFrame lay c) hs
  have hd : decide (frame_header (serialReadFrame lay c).frame = 0xAA) = false :=
    decide_eq_false hh
  rw [hd] at hcs
  rw [readFrame_not_aligned lay c hn _ hcs]
  simp [serialReadFrame, drop_one_drop]

/-- Bytes left after dropping the frame and the resync byte: `L + min 1 (n - L)`
bytes are gone. -/
theorem length_drop_resync (xs : List Byte) (L : Nat) (h : L ≤ xs.length) :
    (xs.drop (L + 1)).length + (L + min 1 (xs.length - L)) = xs.length := by
  rw [List.length_drop]
  omega

/-- Dropping the frame and the resync byte is dropping `L + min 1 (n - L)` bytes. -/
theorem drop_resync (xs : List Byte) (L : Nat) (h : L ≤ xs.length) :
    xs.drop (L + 1) = xs.drop (L + min 1 (xs.length - L)) := by
  by_cases hl : xs.length = L
  · have h1 : xs.drop (L + 1) = [] := List.drop_of_length_le (by omega)
    have h2 : xs.drop (L + min 1 (xs.length - L)) = [] := List.drop_of_length_le (by omega)
    rw [h1, h2]
  · have h1 : min 1 (xs.length - L) = 1 := by omega
    rw [h1]

/-- Every call that reads a frame ends in one of three ways. -/
theorem readFrame_cases (lay : FrameLayout) (c : Comm)
    (hn : sizeofFrame lay ≤ serialAvailable c) :
    ((readFrame lay c).1 = ReadFrameRes.VALID_FRAME ∧
      (readFrame lay c).2.synced = true ∧
      (readFrame lay c).2.serial = c.serial.drop (sizeofFrame lay)) ∨
    ((readFrame lay c).1 = ReadFrameRes.NOT_VALID_FRAME ∧
      (readFrame lay c).2.synced = true ∧
      (readFrame lay c).2.serial = c.serial.drop (sizeofFrame lay)) ∨
    ((readFrame lay c).1 = ReadFrameRes.NOT_ALLIGNED_FRAME ∧
      (readFrame lay c).2.synced = false ∧
      (readFrame lay c).2.serial = c.serial.drop (sizeofFrame lay + 1)) := by
  by_cases hh : frame_header (c.serial.take (sizeofFrame lay)) = 0xAA <;>
  by_cases hc : crc16_x25 (frame_data lay (c.serial.take (sizeofFrame lay)))
      = frame_crc lay (c.serial.take (sizeofFrame lay)) <;>
  cases hs : c.synced
  · rw [readFrame_unsynced_good lay c hs hn hh hc]; simp
  · rw [readFrame_synced_good lay c hs hn hh hc]; simp
  · rw [readFrame_unsynced_bad_crc lay c hs hn hc]; simp
  · rw [readFrame_synced_bad_crc lay c hs hn hh hc]; simp
  · rw [readFrame_unsynced_bad_header lay c hs hn hh hc]; simp
  · rw [readFrame_synced_bad_header lay c hs hn hh]; simp
  · rw [readFrame_unsynced_bad_crc lay c hs hn hc]; simp
  · rw [readFrame_synced_bad_header lay c hs hn hh]; simp

/-- The loop of `crc16_x25` over a concatenation runs over the parts in turn. -/
theorem crc16_x25_loop_append (xs ys : List Byte) :
    ∀ crc, crc16_x25_loop crc (xs ++ ys) = crc16_x25_loop (crc16_x25_loop crc xs) ys := by
  induction xs with
  | nil => intro crc; rfl
  | cons b rest ih =>
    intro crc
    simp only [List.cons_append, crc16_x25_loop]
    exact ih _

set_option maxRecDepth 4000 in
theorem payload_A_crc_part1 : crc16_x25_loop 0xffff (List.replicate 9 0) = 19992 := by
  rfl

set_option maxRecDepth 4000 in
theorem payload_A_crc_part2 :
    crc16_x25_loop 19992 [0, 0, 0, 0x50, 0x40, 0, 0, 0, 0] = 21729 := by
  rfl

set_option maxRecDepth 4000 in
theorem payload_A_crc_part3 : crc16_x25_loop 21729 (List.replicate 8 0) = 34021 := by
  rfl

set_option maxRecDepth 4000 in
theorem payload_A_crc_part4 : crc16_x25_loop 34021 (List.replicate 8 0) = 26345 := by
  rfl

/-- The CRC of the scenario A payload is 0x9916. -/
theorem payload_A_crc : crc16_x25 payload_A = 0x9916 := by
  have hsplit : payload_A
      = List.replicate 9 0 ++ ([0, 0, 0, 0x50, 0x40, 0, 0, 0, 0]
          ++ (List.replicate 8 0 ++ List.replicate 8 0)) := by decide
  unfold crc16_x25
  rw [hsplit, crc16_x25_loop_append, crc16_x25_loop_append, crc16_x25_loop_append,
    payload_A_crc_part1, payload_A_crc_part2, payload_A_crc_part3, payload_A_crc_part4]
  decide

/-- The trailer of frame A, 0x9916, is the CRC of its payload. -/
theorem frame_A_crc_ok :
    frame_crc bota_layout (comm_unsynced_A.serial.take (sizeofFrame bota_layout))
      = crc16_x25
          (frame_data bota_layout (comm_unsynced_A.serial.take (sizeofFrame bota_layout))) := by
  have hd : frame_data bota_layout (comm_unsynced_A.serial.take (sizeofFrame bota_layout))
      = payload_A := by decide
  rw [hd, payload_A_crc]
  decide

/-- The trailer of frame B, 0x9816, is not the CRC of its payload. -/
theorem frame_B_crc_bad :
    frame_crc bota_layout (comm_synced_B.serial.take (sizeofFrame bota_layout))
      ≠ crc16_x25
          (frame_data bota_layout (comm_synced_B.serial.take (sizeofFrame bota_layout))) := by
  have hd : frame_data bota_layout (comm_synced_B.serial.take (sizeofFrame bota_layout))
      = payload_A := by decide
  rw [hd, payload_A_crc]
  decide

/-! ## Claims on the frame reader -/

/-- C1: for an Unsynced reader (any prior crc_error_count) and a transport with
at least L bytes, the reader is Synced after `readFrame` if and only if the
frame just read has header 0xAA and its little-endian trailer equals
`crc16_x25` of the payload; and when it becomes Synced the result is
VALID_FRAME and crc_error_count is 0. -/
theorem readFrame_sync_acquisition (lay : FrameLayout) (c : Comm)
    (hu : c.synced = false) (hn : sizeofFrame lay ≤ serialAvailable c) :
    (readFrame lay c).2.frame = c.serial.take (sizeofFrame lay) ∧
    ((readFrame lay c).2.synced = true ↔
      (frame_header (c.serial.take (sizeofFrame lay)) = 0xAA ∧
       frame_crc lay (c.serial.take (sizeofFrame lay))
         = crc16_x25 (frame_data lay (c.serial.take (sizeofFrame lay))))) ∧
    ((readFrame lay c).2.synced = true →
      (readFrame lay c).1 = ReadFrameRes.VALID_FRAME ∧
      (readFrame lay c).2.crc_err_count = 0) := by
  by_cases hc : crc16_x25 (frame_data lay (c.serial.take (sizeofFrame lay)))
      = frame_crc lay (c.serial.take (sizeofFrame lay))
  · by_cases hh : frame_header (c.serial.take (sizeofFrame lay)) = 0xAA
    · rw [readFrame_unsynced_good lay c hu hn hh hc]
      exact ⟨rfl, ⟨fun _ => ⟨hh, hc.symm⟩, fun _ => rfl⟩, fun _ => ⟨rfl, rfl⟩⟩
    · rw [readFrame_unsynced_bad_header lay c hu hn hh hc]
      refine ⟨rfl, ⟨fun h => ?_, fun h => absurd h.1 hh⟩, fun h => ?_⟩ <;>
        exact absurd h (by simp)
  · rw [readFrame_unsynced_bad_crc lay c hu hn hc]
    refine ⟨rfl, ⟨fun h => ?_, fun h => absurd h.2.symm hc⟩, fun h => ?_⟩ <;>
      exact absurd h (by simp)

/-- Witness for C1: the Unsynced reader `comm_unsynced_A` acquires sync on frame A. -/
theorem readFrame_sync_acquisition_witness :
    comm_unsynced_A.synced = false ∧
    sizeofFrame bota_layout ≤ serialAvailable comm_unsynced_A ∧
    (readFrame bota_layout comm_unsynced_A).2.frame
      = comm_unsynced_A.serial.take (sizeofFrame bota_layout) ∧
    (readFrame bota_layout comm_unsynced_A).2.synced = true ∧
    (readFrame bota_layout comm_unsynced_A).1 = ReadFrameRes.VALID_FRAME ∧
    (readFrame bota_layout comm_unsynced_A).2.crc_err_count = 0 := by
  have h := readFrame_sync_acquisition bota_layout comm_unsynced_A rfl (by decide)
  have hs : (readFrame bota_layout comm_unsynced_A).2.synced = true :=
    h.2.1.mpr ⟨by decide, frame_A_crc_ok⟩
  exact ⟨rfl, by decide, h.1, hs, (h.2.2 hs).1, (h.2.2 hs).2⟩

/-- C2: for a Synced reader and a transport with at least L bytes whose next
frame has header 0xAA and a trailer different from `crc16_x25` of its payload,
`readFrame` returns NOT_VALID_FRAME, the reader stays Synced, crc_error_count
grows by 1 modulo 2^32, and exactly L bytes are consumed. -/
theorem readFrame_sync_retention (lay : FrameLayout) (c : Comm)
    (hs : c.synced = true) (hn : sizeofFrame lay ≤ serialAvailable c)
    (hh : frame_header (c.serial.take (sizeofFrame lay)) = 0xAA)
    (hc : frame_crc lay (c.serial.take (sizeofFrame lay))
      ≠ crc16_x25 (frame_data lay (c.serial.take (sizeofFrame lay)))) :
    (readFrame lay c).1 = ReadFrameRes.NOT_VALID_FRAME ∧
    (readFrame lay c).2.synced = true ∧
    (readFrame lay c).2.crc_err_count = (c.crc_err_count + 1) % 2 ^ 32 ∧
    (readFrame lay c).2.serial = c.serial.drop (sizeofFrame lay) ∧
    (readFrame lay c).2.serial.length + sizeofFrame lay = c.serial.length := by
  rw [readFrame_synced_bad_crc lay c hs hn hh (Ne.symm hc)]
  exact ⟨rfl, rfl, rfl, rfl, length_drop_add _ _ hn⟩

/-- Witness for C2: scenario B, a flipped trailer bit met by a Synced reader. -/
theorem readFrame_sync_retention_witness :
    comm_synced_B.synced = true ∧
    sizeofFrame bota_layout ≤ serialAvailable comm_synced_B ∧
    (readFrame bota_layout comm_synced_B).1 = ReadFrameRes.NOT_VALID_FRAME ∧
    (readFrame bota_layout comm_synced_B).2.synced = true ∧
    (readFrame bota_layout comm_synced_B).2.crc_err_count = 4 ∧
    (readFrame bota_layout comm_synced_B).2.serial = [] :=
  have h := readFrame_sync_retention bota_layout comm_synced_B rfl (by decide)
    (by decide) frame_B_crc_bad
  ⟨rfl, by decide, h.1, h.2.1, h.2.2.1, h.2.2.2.1⟩

/-- C3, as amended: for a Synced reader and a transport with n ≥ L bytes whose
next frame has a header other than 0xAA, `readFrame` returns
NOT_ALLIGNED_FRAME, the reader becomes Unsynced, and L + min(1, n - L) bytes
are consumed: one byte beyond the frame when the transport holds more than L
bytes, none when it holds exactly L. -/
theorem readFrame_misalignment (lay : FrameLayout) (c : Comm)
    (hs : c.synced = true) (hn : sizeofFrame lay ≤ serialAvailable c)
    (hh : frame_header (c.serial.take (sizeofFrame lay)) ≠ 0xAA) :
    (readFrame lay c).1 = ReadFrameRes.NOT_ALLIGNED_FRAME ∧
    (readFrame lay c).2.synced = false ∧
    (readFrame lay c).2.serial
      = c.serial.drop (sizeofFrame lay + min 1 (serialAvailable c - sizeofFrame lay)) ∧
    (readFrame lay c).2.serial.length
        + (sizeofFrame lay + min 1 (serialAvailable c - sizeofFrame lay))
      = serialAvailable c := by
  rw [readFrame_synced_bad_header lay c hs hn hh]
  exact ⟨rfl, rfl, drop_resync _ _ hn, length_drop_resync _ _ hn⟩

/-- Witness for C3 as amended: frame C followed by frame A; 38 of the 74 bytes
are consumed. -/
theorem readFrame_misalignment_witness :
    comm_synced_CA.synced = true ∧
    sizeofFrame bota_layout ≤ serialAvailable comm_synced_CA ∧
    frame_header (comm_synced_CA.serial.take (sizeofFrame bota_layout)) ≠ 0xAA ∧
    (readFrame bota_layout comm_synced_CA).1 = ReadFrameRes.NOT_ALLIGNED_FRAME ∧
    (readFrame bota_layout comm_synced_CA).2.synced = false ∧
    (readFrame bota_layout comm_synced_CA).2.serial.length + 38 = 74 :=
  have h := readFrame_misalignment bota_layout comm_synced_CA rfl (by decide) (by decide)
  ⟨rfl, by decide, by decide, h.1, h.2.1, h.2.2.2⟩

/-- Counterexample to C3 as stated: a Synced reader whose transport holds
exactly one frame (37 bytes) with header 0x00. The call returns
NOT_ALLIGNED_FRAME and drops sync, but only the 37 frame bytes are consumed,
since no byte is left to discard; so L + 1 = 38 bytes are not consumed. -/
theorem readFrame_misalignment_counterexample :
    ¬ (∀ (lay : FrameLayout) (c : Comm),
        c.synced = true → sizeofFrame lay ≤ serialAvailable c →
        frame_header (c.serial.take (sizeofFrame lay)) ≠ 0xAA →
        (readFrame lay c).1 = ReadFrameRes.NOT_ALLIGNED_FRAME ∧
        (readFrame lay c).2.synced = false ∧
        (readFrame lay c).2.serial.length + (sizeofFrame lay + 1) = c.serial.length) := by
  intro h
  have h1 := (h bota_layout comm_synced_C rfl (by decide) (by decide)).2.2
  exact absurd h1 (by decide)

/-- C4: with fewer than L bytes buffered, `readFrame` returns NO_FRAME, consumes
nothing, and leaves synced, crc_error_count and the frame buffer as they were. -/
theorem readFrame_starvation (lay : FrameLayout) (c : Comm)
    (h : serialAvailable c < sizeofFrame lay) :
    (readFrame lay c).1 = ReadFrameRes.NO_FRAME ∧
    (readFrame lay c).2.serial = c.serial ∧
    (readFrame lay c).2.synced = c.synced ∧
    (readFrame lay c).2.crc_err_count = c.crc_err_count ∧
    (readFrame lay c).2.frame = c.frame := by
  rw [readFrame_of_lt lay c h]
  exact ⟨rfl, rfl, rfl, rfl, rfl⟩

/-- Witness for C4: 36 bytes buffered, one short of a frame. -/
theorem readFrame_starvation_witness :
    serialAvailable comm_starved < sizeofFrame bota_layout ∧
    (readFrame bota_layout comm_starved).1 = ReadFrameRes.NO_FRAME ∧
    (readFrame bota_layout comm_starved).2.serial = comm_starved.serial ∧
    (readFrame bota_layout comm_starved).2.synced = comm_starved.synced ∧
    (readFrame bota_layout comm_starved).2.crc_err_count = comm_starved.crc_err_count ∧
    (readFrame bota_layout comm_starved).2.frame = comm_starved.frame :=
  ⟨by decide, readFrame_starvation bota_layout comm_starved (by decide)⟩

/-- C8: one call of `readFrame` on a transport with n bytes consumes a leading
segment of the stream: 0 bytes on NO_FRAME, L bytes on VALID_FRAME and
NOT_VALID_FRAME, and L + min(1, n - L) bytes on NOT_ALLIGNED_FRAME. -/
theorem readFrame_byte_accounting (lay : FrameLayout) (c : Comm) :
    ∃ k : Nat,
      k = (match (readFrame lay c).1 with
          | ReadFrameRes.NO_FRAME => 0
          | ReadFrameRes.VALID_FRAME => sizeofFrame lay
          | ReadFrameRes.NOT_VALID_FRAME => sizeofFrame lay
          | ReadFrameRes.NOT_ALLIGNED_FRAME =>
            sizeofFrame lay + min 1 (serialAvailable c - sizeofFrame lay)) ∧
      (readFrame lay c).2.serial = c.serial.drop k ∧
      (readFrame lay c).2.serial.length + k = serialAvailable c := by
  by_cases hn : sizeofFrame lay ≤ serialAvailable c
  · rcases readFrame_cases lay c hn with ⟨h1, _, h3⟩ | ⟨h1, _, h3⟩ | ⟨h1, _, h3⟩
    · exact ⟨_, rfl, by rw [h1]; exact h3, by rw [h1, h3]; exact length_drop_add _ _ hn⟩
    · exact ⟨_, rfl, by rw [h1]; exact h3, by rw [h1, h3]; exact length_drop_add _ _ hn⟩
    · refine ⟨_, rfl, ?_, ?_⟩
      · rw [h1, h3]; exact drop_resync _ _ hn
      · rw [h1, h3]; exact length_drop_resync _ _ hn
  · rw [readFrame_of_lt lay c (Nat.not_le.mp hn)]
    exact ⟨0, rfl, rfl, rfl⟩

/-! ## Reading adapter lemmas -/

/-- What `get_reading` returns, read off the result of its `readFrame` call. -/
theorem get_reading_fst (lay : FrameLayout) (d : Driver) (reading_m : Nat) :
    (get_reading lay d reading_m).1
      = (decide ((readFrame lay d.sensorComm).1 = ReadFrameRes.VALID_FRAME) &&
         decide (frame_status_val lay (readFrame lay d.sensorComm).2.frame = 0)) := by
  unfold get_reading
  simp only []
  generalize readFrame lay d.sensorComm = r
  rcases r with ⟨res, c1⟩
  cases res <;> simp
  by_cases h : 0 < frame_status_val lay c1.frame
  · simp [h]; omega
  · simp [h]; omega

/-- On failure the stored state and the output variable keep their values. -/
theorem get_reading_of_false (lay : FrameLayout) (d : Driver) (reading_m : Nat)
    (h : (get_reading lay d reading_m).1 = false) :
    (get_reading lay d reading_m).2.1.state = d.state ∧
    (get_reading lay d reading_m).2.2 = reading_m := by
  unfold get_reading at h ⊢
  simp only [] at h ⊢
  generalize readFrame lay d.sensorComm = r at h ⊢
  rcases r with ⟨res, c1⟩
  cases res <;> simp at h ⊢
  by_cases hst : 0 < frame_status_val lay c1.frame
  · simp [hst]
  · simp [hst] at h

/-- On a VALID_FRAME with status word 0 the Z force is stored and returned. -/
theorem get_reading_of_valid (lay : FrameLayout) (d : Driver) (reading_m : Nat) (c1 : Comm)
    (hr : readFrame lay d.sensorComm = (ReadFrameRes.VALID_FRAME, c1))
    (hst : frame_status_val lay c1.frame = 0) :
    get_reading lay d reading_m
      = (true,
         { d with sensorComm := c1,
                  state := { d.state with force_n := frame_forces lay c1.frame 2 } },
         frame_forces lay c1.frame 2) := by
  unfold get_reading
  simp only [hr]
  simp [hst]

/-- The driver `driver_B` gets no reading out of frame B. -/
theorem get_reading_driver_B : (get_reading bota_layout driver_B 0x40A00000).1 = false := by
  rw [get_reading_fst,
    readFrame_synced_bad_crc bota_layout driver_B.sensorComm rfl (by decide) (by decide)
      (Ne.symm frame_B_crc_bad)]
  rfl

/-! ## Claims on the reading adapter -/

/-- C5: `get_reading` returns true if and only if the `readFrame` call it makes
returns VALID_FRAME and the status word of the frame decoded by that call is
zero; for every nonzero status word and every other result it returns false. -/
theorem get_reading_gate (lay : FrameLayout) (d : Driver) (reading_m : Nat) :
    ((get_reading lay d reading_m).1 = true ↔
      ((readFrame lay d.sensorComm).1 = ReadFrameRes.VALID_FRAME ∧
       frame_status_val lay (readFrame lay d.sensorComm).2.frame = 0)) ∧
    (get_reading lay d reading_m).2.1.sensorComm = (readFrame lay d.sensorComm).2 := by
  constructor
  · rw [get_reading_fst]
    simp
  · unfold get_reading
    simp only []
    generalize readFrame lay d.sensorComm = r
    rcases r with ⟨res, c1⟩
    cases res <;> simp
    by_cases h : 0 < frame_status_val lay c1.frame <;> simp [h]

/-- C6: whatever the reader state, when the next L bytes of the transport form a
frame with header 0xAA, status word 0 and trailer equal to `crc16_x25` of the
payload, `get_reading` returns true and both `reading_m` and `state.force_n`
are the frame's `forces[2]`, with nothing subtracted whatever `offset_flag` and
`offset_n` are. -/
theorem get_reading_accepts (lay : FrameLayout) (d : Driver) (reading_m : Nat)
    (hn : sizeofFrame lay ≤ serialAvailable d.sensorComm)
    (hh : frame_header (d.sensorComm.serial.take (sizeofFrame lay)) = 0xAA)
    (hst : frame_status_val lay (d.sensorComm.serial.take (sizeofFrame lay)) = 0)
    (hc : frame_crc lay (d.sensorComm.serial.take (sizeofFrame lay))
      = crc16_x25 (frame_data lay (d.sensorComm.serial.take (sizeofFrame lay)))) :
    (get_reading lay d reading_m).1 = true ∧
    (get_reading lay d reading_m).2.2
      = frame_forces lay (d.sensorComm.serial.take (sizeofFrame lay)) 2 ∧
    (get_reading lay d reading_m).2.1.state.force_n
      = frame_forces lay (d.sensorComm.serial.take (sizeofFrame lay)) 2 ∧
    (get_reading lay d reading_m).2.1.state.offset_flag = d.state.offset_flag ∧
    (get_reading lay d reading_m).2.1.state.offset_n = d.state.offset_n := by
  cases hs : d.sensorComm.synced
  · rw [get_reading_of_valid lay d reading_m _
      (readFrame_unsynced_good lay d.sensorComm hs hn hh hc.symm) hst]
    exact ⟨rfl, rfl, rfl, rfl, rfl⟩
  · rw [get_reading_of_valid lay d reading_m _
      (readFrame_synced_good lay d.sensorComm hs hn hh hc.symm) hst]
    exact ⟨rfl, rfl, rfl, rfl, rfl⟩

/-- Witness for C6: scenario A with the offset flag set; the reading is 3.25
(0x40500000 = 1078984704). -/
theorem get_reading_accepts_witness :
    sizeofFrame bota_layout ≤ serialAvailable driver_A.sensorComm ∧
    driver_A.state.offset_flag = true ∧
    (get_reading bota_layout driver_A 0).1 = true ∧
    (get_reading bota_layout driver_A 0).2.2 = 1078984704 ∧
    (get_reading bota_layout driver_A 0).2.1.state.force_n = 1078984704 :=
  have h := get_reading_accepts bota_layout driver_A 0 (by decide) (by decide) (by decide)
    frame_A_crc_ok
  ⟨by decide, rfl, h.1, h.2.1.trans (by decide), h.2.2.1.trans (by decide)⟩

/-- C7: whenever `get_reading` returns false, `state.force_n` and the caller's
`reading_m` are exactly what they were before the call. -/
theorem get_reading_stale_on_failure (lay : FrameLayout) (d : Driver) (reading_m : Nat)
    (h : (get_reading lay d reading_m).1 = false) :
    (get_reading lay d reading_m).2.1.state.force_n = d.state.force_n ∧
    (get_reading lay d reading_m).2.2 = reading_m := by
  have h1 := get_reading_of_false lay d reading_m h
  exact ⟨by rw [h1.1], h1.2⟩

/-- Witness for C7: scenario B; the stored 1.0 and the caller's 5.0 (0x40A00000)
survive the rejected frame. -/
theorem get_reading_stale_on_failure_witness :
    (get_reading bota_layout driver_B 0x40A00000).1 = false ∧
    (get_reading bota_layout driver_B 0x40A00000).2.1.state.force_n = 0x3F800000 ∧
    (get_reading bota_layout driver_B 0x40A00000).2.2 = 0x40A00000 :=
  ⟨get_reading_driver_B,
   get_reading_stale_on_failure bota_layout driver_B 0x40A00000 get_reading_driver_B⟩

/-! ## Claims on construction and on the result of a poll -/

/-- The constructor assigns `_synced` and nothing else. -/
theorem BotaForceTorqueSensorComm_assigns_synced_only (storage : Comm) :
    (BotaForceTorqueSensorComm storage).synced = false ∧
    (BotaForceTorqueSensorComm storage).crc_err_count = storage.crc_err_count ∧
    (BotaForceTorqueSensorComm storage).frame = storage.frame ∧
    (BotaForceTorqueSensorComm storage).serial = storage.serial := by
  unfold BotaForceTorqueSensorComm
  exact ⟨rfl, rfl, rfl, rfl⟩

/-- Whatever the counter held at construction, the first poll of a new reader
that reads a frame leaves it at 0 when the CRC matches and at 1 when it does
not: the value at construction is never reported. -/
theorem readFrame_first_poll_counter (lay : FrameLayout) (storage : Comm)
    (hn : sizeofFrame lay ≤ serialAvailable storage) :
    (readFrame lay (BotaForceTorqueSensorComm storage)).2.crc_err_count
      = if crc16_x25 (frame_data lay (storage.serial.take (sizeofFrame lay)))
            = frame_crc lay (storage.serial.take (sizeofFrame lay)) then 0 else 1 := by
  have hctor := BotaForceTorqueSensorComm_assigns_synced_only storage
  have hn1 : sizeofFrame lay ≤ serialAvailable (BotaForceTorqueSensorComm storage) := by
    unfold serialAvailable
    rw [hctor.2.2.2]
    exact hn
  by_cases hc : crc16_x25 (frame_data lay (storage.serial.take (sizeofFrame lay)))
      = frame_crc lay (storage.serial.take (sizeofFrame lay))
  · rw [if_pos hc]
    have hc1 := hc
    rw [← hctor.2.2.2] at hc1
    by_cases hh : frame_header
        ((BotaForceTorqueSensorComm storage).serial.take (sizeofFrame lay)) = 0xAA
    · rw [readFrame_unsynced_good lay _ hctor.1 hn1 hh hc1]
    · rw [readFrame_unsynced_bad_header lay _ hctor.1 hn1 hh hc1]
  · rw [if_neg hc]
    have hc1 := hc
    rw [← hctor.2.2.2] at hc1
    rw [readFrame_unsynced_bad_crc lay _ hctor.1 hn1 hc1]

/-- C13: whatever the prior state of the reader (Synced or not, any
crc_error_count), `readFrame` returns VALID_FRAME if and only if at least L
bytes are buffered and the frame read has header 0xAA and a little-endian
trailer equal to `crc16_x25` of its payload; no other CRC routine enters. -/
theorem readFrame_valid_iff (lay : FrameLayout) (c : Comm) :
    (readFrame lay c).1 = ReadFrameRes.VALID_FRAME ↔
      (sizeofFrame lay ≤ serialAvailable c ∧
       frame_header (c.serial.take (sizeofFrame lay)) = 0xAA ∧
       frame_crc lay (c.serial.take (sizeofFrame lay))
         = crc16_x25 (frame_data lay (c.serial.take (sizeofFrame lay)))) := by
  by_cases hn : sizeofFrame lay ≤ serialAvailable c
  · by_cases hh : frame_header (c.serial.take (sizeofFrame lay)) = 0xAA <;>
    by_cases hc : crc16_x25 (frame_data lay (c.serial.take (sizeofFrame lay)))
        = frame_crc lay (c.serial.take (sizeofFrame lay)) <;>
    cases hs : c.synced
    · rw [readFrame_unsynced_good lay c hs hn hh hc]; simp [hn, hh, hc]
    · rw [readFrame_synced_good lay c hs hn hh hc]; simp [hn, hh, hc]
    · rw [readFrame_unsynced_bad_crc lay c hs hn hc]; simp [hn, hh, Ne.symm hc]
    · rw [readFrame_synced_bad_crc lay c hs hn hh hc]; simp [hn, hh, Ne.symm hc]
    · rw [readFrame_unsynced_bad_header lay c hs hn hh hc]; simp [hn, hh, hc]
    · rw [readFrame_synced_bad_header lay c hs hn hh]; simp [hn, hh, hc]
    · rw [readFrame_unsynced_bad_crc lay c hs hn hc]; simp [hn, hh, Ne.symm hc]
    · rw [readFrame_synced_bad_header lay c hs hn hh]; simp [hn, hh, Ne.symm hc]
  · rw [readFrame_of_lt lay c (Nat.not_le.mp hn)]
    simp [hn]

/-- C14: after a call of `readFrame` that reads a frame (n ≥ L) the reader is
Synced exactly when the result is VALID_FRAME or NOT_VALID_FRAME and Unsynced
exactly when it is NOT_ALLIGNED_FRAME; and a byte beyond the frame is consumed
only when the result is NOT_ALLIGNED_FRAME. -/
theorem readFrame_result_agrees_with_sync (lay : FrameLayout) (c : Comm)
    (hn : sizeofFrame lay ≤ serialAvailable c) :
    ((readFrame lay c).2.synced = true ↔
      ((readFrame lay c).1 = ReadFrameRes.VALID_FRAME ∨
       (readFrame lay c).1 = ReadFrameRes.NOT_VALID_FRAME)) ∧
    ((readFrame lay c).2.synced = false ↔
      (readFrame lay c).1 = ReadFrameRes.NOT_ALLIGNED_FRAME) ∧
    ((readFrame lay c).2.serial.length + (sizeofFrame lay + 1) = serialAvailable c →
      (readFrame lay c).1 = ReadFrameRes.NOT_ALLIGNED_FRAME) := by
  have hlen := length_drop_add c.serial (sizeofFrame lay) hn
  unfold serialAvailable
  rcases readFrame_cases lay c hn with ⟨h1, h2, h3⟩ | ⟨h1, h2, h3⟩ | ⟨h1, h2, h3⟩
  · rw [h1, h2, h3]
    refine ⟨by simp, by simp, fun h => ?_⟩
    omega
  · rw [h1, h2, h3]
    refine ⟨by simp, by simp, fun h => ?_⟩
    omega
  · rw [h1, h2, h3]
    exact ⟨by simp, by simp, fun _ => rfl⟩

/-- Witness for C14: the Synced reader `comm_synced_CA` (74 bytes buffered)
loses sync on frame C and 38 bytes are consumed. -/
theorem readFrame_result_agrees_with_sync_witness :
    sizeofFrame bota_layout ≤ serialAvailable comm_synced_CA ∧
    ((readFrame bota_layout comm_synced_CA).2.synced = false ↔
      (readFrame bota_layout comm_synced_CA).1 = ReadFrameRes.NOT_ALLIGNED_FRAME) :=
  ⟨by decide,
   (readFrame_result_agrees_with_sync bota_layout comm_synced_CA (by decide)).2.1⟩

/-- C15: for an Unsynced reader, a frame read whose header is not 0xAA or whose
trailer differs from `crc16_x25` of its payload gives NOT_ALLIGNED_FRAME, never
NOT_VALID_FRAME; the reader stays Unsynced, one byte beyond the frame is
discarded when one is buffered, and crc_error_count ends at 0 when the CRC
matched and at 1 when it did not, whatever it was before. -/
theorem readFrame_failed_acquisition (lay : FrameLayout) (c : Comm)
    (hu : c.synced = false) (hn : sizeofFrame lay ≤ serialAvailable c)
    (hbad : frame_header (c.serial.take (sizeofFrame lay)) ≠ 0xAA ∨
      frame_crc lay (c.serial.take (sizeofFrame lay))
        ≠ crc16_x25 (frame_data lay (c.serial.take (sizeofFrame lay)))) :
    (readFrame lay c).1 = ReadFrameRes.NOT_ALLIGNED_FRAME ∧
    (readFrame lay c).1 ≠ ReadFrameRes.NOT_VALID_FRAME ∧
    (readFrame lay c).2.synced = false ∧
    (readFrame lay c).2.serial
      = c.serial.drop (sizeofFrame lay + min 1 (serialAvailable c - sizeofFrame lay)) ∧
    (readFrame lay c).2.serial.length
        + (sizeofFrame lay + min 1 (serialAvailable c - sizeofFrame lay))
      = serialAvailable c ∧
    (frame_crc lay (c.serial.take (sizeofFrame lay))
        = crc16_x25 (frame_data lay (c.serial.take (sizeofFrame lay))) →
      (readFrame lay c).2.crc_err_count = 0) ∧
    (frame_crc lay (c.serial.take (sizeofFrame lay))
        ≠ crc16_x25 (frame_data lay (c.serial.take (sizeofFrame lay))) →
      (readFrame lay c).2.crc_err_count = 1) := by
  by_cases hc : crc16_x25 (frame_data lay (c.serial.take (sizeofFrame lay)))
      = frame_crc lay (c.serial.take (sizeofFrame lay))
  · have hh : frame_header (c.serial.take (sizeofFrame lay)) ≠ 0xAA := by
      rcases hbad with h | h
      · exact h
      · exact absurd hc.symm h
    rw [readFrame_unsynced_bad_header lay c hu hn hh hc]
    exact ⟨rfl, by simp, rfl, drop_resync _ _ hn, length_drop_resync _ _ hn,
      fun _ => rfl, fun h => absurd hc.symm h⟩
  · rw [readFrame_unsynced_bad_crc lay c hu hn hc]
    exact ⟨rfl, by simp, rfl, drop_resync _ _ hn, length_drop_resync _ _ hn,
      fun h => absurd h.symm hc, fun _ => rfl⟩

/-- Witness for C15: an Unsynced reader with crc_error_count 9 meets frame B
(header right, trailer wrong); the counter ends at 1. -/
theorem readFrame_failed_acquisition_witness :
    comm_unsynced_B.synced = false ∧
    sizeofFrame bota_layout ≤ serialAvailable comm_unsynced_B ∧
    (readFrame bota_layout comm_unsynced_B).1 = ReadFrameRes.NOT_ALLIGNED_FRAME ∧
    (readFrame bota_layout comm_unsynced_B).2.synced = false ∧
    (readFrame bota_layout comm_unsynced_B).2.crc_err_count = 1 :=
  have h := readFrame_failed_acquisition bota_layout comm_unsynced_B rfl (by decide)
    (Or.inr frame_B_crc_bad)
  ⟨rfl, by decide, h.1, h.2.2.1, h.2.2.2.2.2.2 frame_B_crc_bad⟩

/-- C16: for a Synced reader, a call of `readFrame` whose result is not
NOT_VALID_FRAME (so VALID_FRAME, NOT_ALLIGNED_FRAME or NO_FRAME) leaves
crc_error_count exactly as it was. -/
theorem readFrame_synced_counter_kept (lay : FrameLayout) (c : Comm)
    (hs : c.synced = true)
    (hres : (readFrame lay c).1 ≠ ReadFrameRes.NOT_VALID_FRAME) :
    (readFrame lay c).2.crc_err_count = c.crc_err_count := by
  by_cases hn : sizeofFrame lay ≤ serialAvailable c
  · by_cases hh : frame_header (c.serial.take (sizeofFrame lay)) = 0xAA
    · by_cases hc : crc16_x25 (frame_data lay (c.serial.take (sizeofFrame lay)))
          = frame_crc lay (c.serial.take (sizeofFrame lay))
      · rw [readFrame_synced_good lay c hs hn hh hc]
      · rw [readFrame_synced_bad_crc lay c hs hn hh hc] at hres
        exact absurd rfl hres
    · rw [readFrame_synced_bad_header lay c hs hn hh]
  · rw [readFrame_of_lt lay c (Nat.not_le.mp hn)]

/-- The Synced reader `comm_synced_CA` gets NOT_ALLIGNED_FRAME. -/
theorem readFrame_comm_synced_CA :
    (readFrame bota_layout comm_synced_CA).1 = ReadFrameRes.NOT_ALLIGNED_FRAME := by
  rw [readFrame_synced_bad_header bota_layout comm_synced_CA rfl (by decide) (by decide)]

/-- Witness for C16: the Synced reader `comm_synced_CA` loses the header; its
crc_error_count stays 3. -/
theorem readFrame_synced_counter_kept_witness :
    comm_synced_CA.synced = true ∧
    (readFrame bota_layout comm_synced_CA).1 ≠ ReadFrameRes.NOT_VALID_FRAME ∧
    (readFrame bota_layout comm_synced_CA).2.crc_err_count = 3 :=
  have hres : (readFrame bota_layout comm_synced_CA).1 ≠ ReadFrameRes.NOT_VALID_FRAME := by
    rw [readFrame_comm_synced_CA]; decide
  ⟨rfl, hres, readFrame_synced_counter_kept bota_layout comm_synced_CA rfl hres⟩

/-! ## Resynchronisation over a stream of frames -/

theorem readFrame_iter_succ (lay : FrameLayout) (n : Nat) (c : Comm) :
    readFrame_iter lay (n + 1) c = (readFrame lay (readFrame_iter lay n c)).2 := rfl

/-- The first byte of a window cut out of a stream is the stream byte at the
window's position. -/
theorem frame_header_window (S : List Byte) (q L : Nat) (hL : 0 < L) :
    frame_header ((S.drop q).take L) = byteAt S q := by
  unfold frame_header byteAt
  simp [List.getElem?_take_of_lt hL, List.getElem?_drop]

theorem byteAt_append_left (xs ys : List Byte) (p : Nat) (h : p < xs.length) :
    byteAt (xs ++ ys) p = byteAt xs p := by
  unfold byteAt
  simp [List.getElem?_append_left h]

theorem byteAt_append_right (xs ys : List Byte) (p : Nat) (h : xs.length ≤ p) :
    byteAt (xs ++ ys) p = byteAt ys (p - xs.length) := by
  unfold byteAt
  simp [List.getElem?_append_right h]

/-- In a concatenation of frames of length `L` whose bytes past the header are
never 0xAA, a byte at a position off the frame boundaries is not 0xAA. -/
theorem flatten_byte_ne (L : Nat) (fs : List (List Byte))
    (hwf : ∀ f ∈ fs, f.length = L ∧ ∀ i, 1 ≤ i → i < L → byteAt f i ≠ 0xAA) :
    ∀ p, p < fs.flatten.length → p % L ≠ 0 → byteAt fs.flatten p ≠ 0xAA := by
  induction fs with
  | nil => intro p hp; simp at hp
  | cons f rest ih =>
    intro p hp hmod
    have hf := hwf f (List.mem_cons_self f rest)
    have hrest : ∀ g ∈ rest, g.length = L ∧ ∀ i, 1 ≤ i → i < L → byteAt g i ≠ 0xAA :=
      fun g hg => hwf g (List.mem_cons_of_mem f hg)
    rw [List.flatten_cons] at hp ⊢
    by_cases hlt : p < L
    · rw [byteAt_append_left f _ p (by rw [hf.1]; exact hlt)]
      have hpm : p % L = p := Nat.mod_eq_of_lt hlt
      exact hf.2 p (by omega) hlt
    · rw [byteAt_append_right f _ p (by rw [hf.1]; omega), hf.1]
      have hsub : (p - L) % L = p % L := by
        have h1 : (p - L + L) % L = (p - L) % L := Nat.add_mod_right _ _
        rw [← h1, Nat.sub_add_cancel (by omega)]
      rw [List.length_append, hf.1] at hp
      exact ih hrest (p - L) (by omega) (by rw [hsub]; exact hmod)

/-- In a concatenation of frames of length `L`, the window of `L` bytes at a
multiple of `L` is one of the frames. -/
theorem flatten_aligned (L : Nat) (hL : 0 < L) (fs : List (List Byte))
    (hlen : ∀ f ∈ fs, f.length = L) :
    ∀ m, L * m + L ≤ fs.flatten.length → (fs.flatten.drop (L * m)).take L ∈ fs := by
  induction fs with
  | nil => intro m hm; simp at hm; omega
  | cons f rest ih =>
    intro m hm
    have hf := hlen f (List.mem_cons_self f rest)
    have hrest : ∀ g ∈ rest, g.length = L := fun g hg => hlen g (List.mem_cons_of_mem f hg)
    rw [List.flatten_cons] at hm ⊢
    rw [List.length_append, hf] at hm
    cases m with
    | zero =>
      rw [Nat.mul_zero, List.drop_zero, List.take_left' hf]
      exact List.mem_cons_self f rest
    | succ m =>
      have hidx : L * (m + 1) = f.length + L * m := by rw [hf, Nat.mul_succ, Nat.add_comm]
      rw [hidx, List.drop_append]
      rw [Nat.mul_succ] at hm
      exact List.mem_cons_of_mem f (ih hrest m (by omega))

/-- One poll of an Unsynced reader whose window starts on a byte other than
0xAA: NOT_ALLIGNED_FRAME, and the window moves on by `L + 1` bytes. -/
theorem readFrame_unsynced_off_boundary (lay : FrameLayout) (S : List Byte) (c : Comm)
    (q : Nat) (hu : c.synced = false) (hs : c.serial = S.drop q)
    (hq : q + sizeofFrame lay ≤ S.length) (hb : byteAt S q ≠ 0xAA) :
    (readFrame lay c).1 = ReadFrameRes.NOT_ALLIGNED_FRAME ∧
    (readFrame lay c).2.synced = false ∧
    (readFrame lay c).2.serial = S.drop (q + sizeofFrame lay + 1) := by
  have hn : sizeofFrame lay ≤ serialAvailable c := by
    unfold serialAvailable
    rw [hs, List.length_drop]
    omega
  have hL : 0 < sizeofFrame lay := by unfold sizeofFrame; omega
  have hh : frame_header (c.serial.take (sizeofFrame lay)) ≠ 0xAA := by
    rw [hs, frame_header_window S q _ hL]
    exact hb
  have hd : c.serial.drop (sizeofFrame lay + 1) = S.drop (q + sizeofFrame lay + 1) := by
    rw [hs, List.drop_drop, Nat.add_assoc]
  by_cases hc : crc16_x25 (frame_data lay (c.serial.take (sizeofFrame lay)))
      = frame_crc lay (c.serial.take (sizeofFrame lay))
  · rw [readFrame_unsynced_bad_header lay c hu hn hh hc]
    exact ⟨rfl, rfl, hd⟩
  · rw [readFrame_unsynced_bad_crc lay c hu hn hc]
    exact ⟨rfl, rfl, hd⟩

/-- While the window is off the frame boundaries the reader stays Unsynced and
each poll moves the window by `L + 1` bytes: before poll `j + 1` it starts
`k + j` bytes into frame `j`. -/
theorem readFrame_iter_off_boundary (lay : FrameLayout) (frames : List (List Byte))
    (k : Nat) (c : Comm)
    (hwf : ∀ f ∈ frames, f.length = sizeofFrame lay ∧
      ∀ i, 1 ≤ i → i < sizeofFrame lay → byteAt f i ≠ 0xAA)
    (hk1 : 1 ≤ k) (hk2 : k < sizeofFrame lay)
    (hu : c.synced = false) (hs : c.serial = frames.flatten.drop k)
    (hlen : (sizeofFrame lay - k) * (sizeofFrame lay + 1) + sizeofFrame lay
      ≤ serialAvailable c) :
    ∀ j, j ≤ sizeofFrame lay - k →
      (readFrame_iter lay j c).synced = false ∧
      (readFrame_iter lay j c).serial
        = frames.flatten.drop (sizeofFrame lay * j + (k + j)) := by
  intro j
  induction j with
  | zero =>
    intro _
    exact ⟨hu, by rw [Nat.mul_zero, Nat.zero_add, Nat.add_zero]; exact hs⟩
  | succ j ih =>
    intro hj
    have ihj := ih (by omega)
    have hS : (sizeofFrame lay - k) * (sizeofFrame lay + 1) + sizeofFrame lay
        ≤ frames.flatten.length - k := by
      have h := hlen
      unfold serialAvailable at h
      rw [hs, List.length_drop] at h
      exact h
    have h1 : (j + 1) * (sizeofFrame lay + 1)
        ≤ (sizeofFrame lay - k) * (sizeofFrame lay + 1) := Nat.mul_le_mul_right _ hj
    have h2 : (j + 1) * (sizeofFrame lay + 1)
        = sizeofFrame lay * j + j + sizeofFrame lay + 1 := by ring
    have hq : sizeofFrame lay * j + (k + j) + sizeofFrame lay ≤ frames.flatten.length := by
      omega
    have hmod : (sizeofFrame lay * j + (k + j)) % sizeofFrame lay ≠ 0 := by
      rw [Nat.mul_add_mod, Nat.mod_eq_of_lt (by omega)]
      omega
    have hb := flatten_byte_ne (sizeofFrame lay) frames hwf
      (sizeofFrame lay * j + (k + j)) (by omega) hmod
    have hstep := readFrame_unsynced_off_boundary lay frames.flatten
      (readFrame_iter lay j c) (sizeofFrame lay * j + (k + j)) ihj.1 ihj.2 hq hb
    rw [readFrame_iter_succ]
    refine ⟨hstep.2.1, ?_⟩
    rw [hstep.2.2, Nat.mul_succ]
    congr 1
    omega

/-! ## Claim on resynchronisation -/

/-- C12: let the stream be a concatenation of well-formed frames (header 0xAA,
trailer = `crc16_x25` of the payload) with no 0xAA among their payload and
trailer bytes, and let an Unsynced reader start k bytes into a frame,
1 ≤ k < L, with at least (L - k)(L + 1) + L bytes buffered. Then each of the
first L - k calls of `readFrame` returns NOT_ALLIGNED_FRAME and moves the
window one byte further into the frames (call j + 1 starts k + j bytes into a
frame), and call L - k + 1 starts on a frame boundary, reads one of the
frames, returns VALID_FRAME and leaves the reader Synced. -/
theorem readFrame_resync_converges (lay : FrameLayout) (frames : List (List Byte))
    (k : Nat) (c : Comm)
    (hwf : ∀ f ∈ frames, f.length = sizeofFrame lay ∧ frame_header f = 0xAA ∧
      frame_crc lay f = crc16_x25 (frame_data lay f) ∧
      ∀ i, 1 ≤ i → i < sizeofFrame lay → byteAt f i ≠ 0xAA)
    (hk1 : 1 ≤ k) (hk2 : k < sizeofFrame lay)
    (hu : c.synced = false) (hs : c.serial = frames.flatten.drop k)
    (hlen : (sizeofFrame lay - k) * (sizeofFrame lay + 1) + sizeofFrame lay
      ≤ serialAvailable c) :
    (∀ j, j < sizeofFrame lay - k →
      (readFrame_iter lay j c).serial
        = frames.flatten.drop (sizeofFrame lay * j + (k + j)) ∧
      (readFrame lay (readFrame_iter lay j c)).1 = ReadFrameRes.NOT_ALLIGNED_FRAME ∧
      (readFrame_iter lay (j + 1) c).synced = false ∧
      (readFrame_iter lay (j + 1) c).serial
        = frames.flatten.drop (sizeofFrame lay * (j + 1) + (k + (j + 1)))) ∧
    (readFrame_iter lay (sizeofFrame lay - k) c).serial
      = frames.flatten.drop (sizeofFrame lay * (sizeofFrame lay - k + 1)) ∧
    (readFrame lay (readFrame_iter lay (sizeofFrame lay - k) c)).1
      = ReadFrameRes.VALID_FRAME ∧
    (readFrame lay (readFrame_iter lay (sizeofFrame lay - k) c)).2.synced = true ∧
    (readFrame lay (readFrame_iter lay (sizeofFrame lay - k) c)).2.frame ∈ frames := by
  have hwf1 : ∀ f ∈ frames, f.length = sizeofFrame lay ∧
      ∀ i, 1 ≤ i → i < sizeofFrame lay → byteAt f i ≠ 0xAA :=
    fun f hf => ⟨(hwf f hf).1, (hwf f hf).2.2.2⟩
  have hinv := readFrame_iter_off_boundary lay frames k c hwf1 hk1 hk2 hu hs hlen
  have hS : (sizeofFrame lay - k) * (sizeofFrame lay + 1) + sizeofFrame lay
      ≤ frames.flatten.length - k := by
    have h := hlen
    unfold serialAvailable at h
    rw [hs, List.length_drop] at h
    exact h
  have hL : 0 < sizeofFrame lay := by omega
  constructor
  · intro j hj
    have hj0 := hinv j (by omega)
    have hj1 := hinv (j + 1) (by omega)
    have h1 : (j + 1) * (sizeofFrame lay + 1)
        ≤ (sizeofFrame lay - k) * (sizeofFrame lay + 1) := Nat.mul_le_mul_right _ hj
    have h2 : (j + 1) * (sizeofFrame lay + 1)
        = sizeofFrame lay * j + j + sizeofFrame lay + 1 := by ring
    have hq : sizeofFrame lay * j + (k + j) + sizeofFrame lay ≤ frames.flatten.length := by
      omega
    have hmod : (sizeofFrame lay * j + (k + j)) % sizeofFrame lay ≠ 0 := by
      rw [Nat.mul_add_mod, Nat.mod_eq_of_lt (by omega)]
      omega
    have hb := flatten_byte_ne (sizeofFrame lay) frames hwf1
      (sizeofFrame lay * j + (k + j)) (by omega) hmod
    have hstep := readFrame_unsynced_off_boundary lay frames.flatten
      (readFrame_iter lay j c) (sizeofFrame lay * j + (k + j)) hj0.1 hj0.2 hq hb
    exact ⟨hj0.2, hstep.1, hj1.1, hj1.2⟩
  · have hend := hinv (sizeofFrame lay - k) (Nat.le_refl _)
    have hpos : sizeofFrame lay * (sizeofFrame lay - k) + (k + (sizeofFrame lay - k))
        = sizeofFrame lay * (sizeofFrame lay - k + 1) := by
      rw [Nat.mul_succ]
      omega
    rw [hpos] at hend
    have h3 : (sizeofFrame lay - k) * (sizeofFrame lay + 1)
        = sizeofFrame lay * (sizeofFrame lay - k) + (sizeofFrame lay - k) := by ring
    have hfit : sizeofFrame lay * (sizeofFrame lay - k + 1) + sizeofFrame lay
        ≤ frames.flatten.length := by
      rw [Nat.mul_succ]
      omega
    have hmem := flatten_aligned (sizeofFrame lay) hL frames (fun f hf => (hwf f hf).1)
      (sizeofFrame lay - k + 1) hfit
    have hn : sizeofFrame lay ≤ serialAvailable (readFrame_iter lay (sizeofFrame lay - k) c) := by
      unfold serialAvailable
      rw [hend.2, List.length_drop]
      omega
    have hw := hwf _ hmem
    rw [← hend.2] at hw hmem
    rw [readFrame_unsynced_good lay _ hend.1 hn hw.2.1 hw.2.2.1.symm]
    exact ⟨hend.2, rfl, rfl, hmem⟩

/-- Frame A is well formed and has no 0xAA past its header. -/
theorem frame_A_well_formed :
    frame_A.length = sizeofFrame bota_layout ∧ frame_header frame_A = 0xAA ∧
    frame_crc bota_layout frame_A = crc16_x25 (frame_data bota_layout frame_A) ∧
    ∀ i, 1 ≤ i → i < sizeofFrame bota_layout → byteAt frame_A i ≠ 0xAA := by
  have hd : frame_data bota_layout frame_A = payload_A := by decide
  refine ⟨by decide, by decide, ?_, ?_⟩
  · rw [hd, payload_A_crc]
    decide
  · intro i h1 h2
    have h3 : i < 37 := h2
    interval_cases i <;> decide

/-- Witness for C12: the reader `comm_midframe` starts 36 bytes into a frame of
the Bota layout (L = 37, k = 36); the first call is misaligned, the second
reads a whole frame. -/
theorem readFrame_resync_converges_witness :
    comm_midframe.synced = false ∧
    (sizeofFrame bota_layout - 36) * (sizeofFrame bota_layout + 1) + sizeofFrame bota_layout
      ≤ serialAvailable comm_midframe ∧
    (readFrame bota_layout (readFrame_iter bota_layout 0 comm_midframe)).1
      = ReadFrameRes.NOT_ALLIGNED_FRAME ∧
    (readFrame bota_layout
      (readFrame_iter bota_layout (sizeofFrame bota_layout - 36) comm_midframe)).1
      = ReadFrameRes.VALID_FRAME ∧
    (readFrame bota_layout
      (readFrame_iter bota_layout (sizeofFrame bota_layout - 36) comm_midframe)).2.synced
      = true :=
  have hwf : ∀ f ∈ stream_AAA, f.length = sizeofFrame bota_layout ∧ frame_header f = 0xAA ∧
      frame_crc bota_layout f = crc16_x25 (frame_data bota_layout f) ∧
      ∀ i, 1 ≤ i → i < sizeofFrame bota_layout → byteAt f i ≠ 0xAA := by
    intro f hf
    have hfA : f = frame_A := by simpa [stream_AAA] using hf
    rw [hfA]
    exact frame_A_well_formed
  have h := readFrame_resync_converges bota_layout stream_AAA 36 comm_midframe hwf
    (by decide) (by decide) rfl rfl (by decide)
  ⟨rfl, by decide, (h.1 0 (by decide)).2.1, h.2.2.1, h.2.2.2.1⟩

/-! ## Injectivity of the CRC recurrence -/

theorem x25_bit_lt (crc : Nat) : x25_bit crc < 65536 := by
  unfold x25_bit
  exact Nat.mod_lt _ (by norm_num)

/-- XOR with the taps 0x8408 sets bit 15 of a 15-bit value. -/
theorem xor_taps_ge (q : Nat) (h : q < 32768) : 32768 ≤ q ^^^ 0x8408 := by
  have hq : q.testBit 15 = false := Nat.testBit_lt_two_pow (by norm_num; exact h)
  have ht : (q ^^^ 0x8408).testBit 15 = true := by
    rw [Nat.testBit_xor, hq]
    decide
  have := Nat.testBit_implies_ge ht
  norm_num at this
  exact this

theorem xor_taps_lt (q : Nat) (h : q < 32768) : q ^^^ 0x8408 < 65536 :=
  Nat.xor_lt_two_pow (n := 16) (by norm_num; omega) (by norm_num)

/-- On an odd 16-bit value one round of the recurrence shifts and applies the
taps: the result has bit 15 set. -/
theorem x25_bit_odd (s : Nat) (hs : s < 65536) (hodd : s % 2 = 1) :
    x25_bit s = (s / 2) ^^^ 0x8408 := by
  unfold x25_bit
  rw [Nat.and_one_is_mod, if_pos (by omega), Nat.shiftRight_eq_div_pow, Nat.pow_one]
  exact Nat.mod_eq_of_lt (xor_taps_lt _ (by omega))

/-- On an even 16-bit value one round of the recurrence only shifts: the result
has bit 15 clear. -/
theorem x25_bit_even (s : Nat) (hs : s < 65536) (heven : s % 2 = 0) :
    x25_bit s = s / 2 := by
  unfold x25_bit
  rw [Nat.and_one_is_mod, if_neg (by omega), Nat.shiftRight_eq_div_pow, Nat.pow_one]
  exact Nat.mod_eq_of_lt (by omega)

/-- One round of the recurrence is injective on 16-bit values. -/
theorem x25_bit_inj (a b : Nat) (ha : a < 65536) (hb : b < 65536)
    (h : x25_bit a = x25_bit b) : a = b := by
  rcases Nat.mod_two_eq_zero_or_one a with ha2 | ha2 <;>
  rcases Nat.mod_two_eq_zero_or_one b with hb2 | hb2
  · rw [x25_bit_even a ha ha2, x25_bit_even b hb hb2] at h
    omega
  · rw [x25_bit_even a ha ha2, x25_bit_odd b hb hb2] at h
    have := xor_taps_ge (b / 2) (by omega)
    omega
  · rw [x25_bit_odd a ha ha2, x25_bit_even b hb hb2] at h
    have := xor_taps_ge (a / 2) (by omega)
    omega
  · rw [x25_bit_odd a ha ha2, x25_bit_odd b hb hb2] at h
    have := Nat.xor_left_inj.mp h
    omega

theorem iterate_x25_bit_lt (n : Nat) (crc : Nat) (h : crc < 65536) :
    Nat.iterate x25_bit n crc < 65536 := by
  induction n generalizing crc with
  | zero => exact h
  | succ n ih =>
    rw [Function.iterate_succ_apply]
    exact ih _ (x25_bit_lt _)

theorem iterate_x25_bit_inj (n : Nat) :
    ∀ a b, a < 65536 → b < 65536 →
      Nat.iterate x25_bit n a = Nat.iterate x25_bit n b → a = b := by
  induction n with
  | zero => intro a b _ _ h; exact h
  | succ n ih =>
    intro a b ha hb h
    rw [Function.iterate_succ_apply, Function.iterate_succ_apply] at h
    exact x25_bit_inj a b ha hb (ih _ _ (x25_bit_lt _) (x25_bit_lt _) h)

/-- The value XORed with a byte is still a 16-bit value. -/
theorem xor_byte_lt (crc : Nat) (b : Byte) (h : crc < 65536) :
    crc ^^^ (b.val <<< 0) < 65536 := by
  rw [Nat.shiftLeft_zero]
  exact Nat.xor_lt_two_pow (n := 16) (by norm_num; exact h) (by norm_num; omega)

theorem crc16_x25_loop_lt (data : List Byte) (crc : Nat) (h : crc < 65536) :
    crc16_x25_loop crc data < 65536 := by
  rw [crc16_x25_loop_eq]
  exact crc16_mcrf4xx_loop_lt data crc h

/-- Feeding the same bytes to two different 16-bit values gives two different
values. -/
theorem crc16_x25_loop_inj (data : List Byte) :
    ∀ a b, a < 65536 → b < 65536 →
      crc16_x25_loop a data = crc16_x25_loop b data → a = b := by
  induction data with
  | nil => intro a b _ _ h; exact h
  | cons d rest ih =>
    intro a b ha hb h
    simp only [crc16_x25_loop] at h
    have h1 := ih _ _ (iterate_x25_bit_lt 8 _ (Nat.mod_lt _ (by norm_num)))
      (iterate_x25_bit_lt 8 _ (Nat.mod_lt _ (by norm_num))) h
    have h2 := iterate_x25_bit_inj 8 _ _ (Nat.mod_lt _ (by norm_num))
      (Nat.mod_lt _ (by norm_num)) h1
    rw [Nat.mod_eq_of_lt (xor_byte_lt a d ha), Nat.mod_eq_of_lt (xor_byte_lt b d hb)] at h2
    exact Nat.xor_left_inj.mp h2

/-- Two byte sequences that differ in one byte only have different CRCs. -/
theorem crc16_x25_one_byte (pre suf : List Byte) (b b' : Byte) (hne : b' ≠ b) :
    crc16_x25 (pre ++ b' :: suf) ≠ crc16_x25 (pre ++ b :: suf) := by
  intro h
  unfold crc16_x25 at h
  have hs : crc16_x25_loop 0xffff pre < 65536 := crc16_x25_loop_lt pre _ (by norm_num)
  rw [Nat.mod_eq_of_lt (xor_ffff_lt _ (crc16_x25_loop_lt _ _ (by norm_num))),
    Nat.mod_eq_of_lt (xor_ffff_lt _ (crc16_x25_loop_lt _ _ (by norm_num)))] at h
  have h1 := Nat.xor_left_inj.mp h
  rw [crc16_x25_loop_append, crc16_x25_loop_append] at h1
  simp only [crc16_x25_loop] at h1
  have h2 := crc16_x25_loop_inj suf _ _
    (iterate_x25_bit_lt 8 _ (Nat.mod_lt _ (by norm_num)))
    (iterate_x25_bit_lt 8 _ (Nat.mod_lt _ (by norm_num))) h1
  have h3 := iterate_x25_bit_inj 8 _ _ (Nat.mod_lt _ (by norm_num))
    (Nat.mod_lt _ (by norm_num)) h2
  rw [Nat.mod_eq_of_lt (xor_byte_lt _ b' hs), Nat.mod_eq_of_lt (xor_byte_lt _ b hs),
    Nat.shiftLeft_zero, Nat.shiftLeft_zero] at h3
  exact hne (Fin.ext (Nat.xor_right_inj.mp h3))

/-- A byte with one bit flipped is a different byte. -/
theorem flipped_byte_ne (p : List Byte) (i j : Nat) (b' : Byte) (hi : i < p.length)
    (hb : b'.val = byteAt p i ^^^ 2 ^ j) : b' ≠ p[i] := by
  intro h
  have hat : byteAt p i = b'.val := by
    unfold byteAt
    rw [h]
    simp [hi]
  rw [hat] at hb
  have h0 : b'.val ^^^ 0 = b'.val ^^^ 2 ^ j := by
    rw [Nat.xor_zero]
    exact hb
  have h1 : 0 = 2 ^ j := Nat.xor_right_inj.mp h0
  have h2 : 0 < 2 ^ j := Nat.pos_pow_of_pos j (by norm_num)
  omega

/-- A call that returns VALID_FRAME has read a frame whose trailer is the CRC of
its payload. -/
theorem readFrame_valid_crc (lay : FrameLayout) (c : Comm)
    (h : (readFrame lay c).1 = ReadFrameRes.VALID_FRAME) :
    crc16_x25 (frame_data lay (c.serial.take (sizeofFrame lay)))
      = frame_crc lay (c.serial.take (sizeofFrame lay)) := by
  by_contra hc
  by_cases hn : sizeofFrame lay ≤ serialAvailable c
  · cases hs : c.synced
    · rw [readFrame_unsynced_bad_crc lay c hs hn hc] at h
      exact ReadFrameRes.noConfusion h
    · by_cases hh : frame_header (c.serial.take (sizeofFrame lay)) = 0xAA
      · rw [readFrame_synced_bad_crc lay c hs hn hh hc] at h
        exact ReadFrameRes.noConfusion h
      · rw [readFrame_synced_bad_header lay c hs hn hh] at h
        exact ReadFrameRes.noConfusion h
  · rw [readFrame_of_lt lay c (Nat.not_le.mp hn)] at h
    exact ReadFrameRes.noConfusion h

/-! ## Claim on single-bit errors -/

/-- C17: for every byte sequence p, every position i in it and every bit j of
that byte, the sequence with that one bit flipped has a different `crc16_x25`;
so a frame whose payload is the flipped sequence and whose trailer is still the
CRC of p is never classified VALID_FRAME, whatever the reader state. -/
theorem crc16_x25_single_bit_detected (p : List Byte) (i j : Nat) (b' : Byte)
    (hi : i < p.length) (_hj : j < 8) (hb : b'.val = byteAt p i ^^^ 2 ^ j) :
    crc16_x25 (p.set i b') ≠ crc16_x25 p ∧
    ∀ (lay : FrameLayout) (c : Comm),
      frame_data lay (c.serial.take (sizeofFrame lay)) = p.set i b' →
      frame_crc lay (c.serial.take (sizeofFrame lay)) = crc16_x25 p →
      (readFrame lay c).1 ≠ ReadFrameRes.VALID_FRAME := by
  have hne : crc16_x25 (p.set i b') ≠ crc16_x25 p := by
    have hp : p = p.take i ++ p[i] :: p.drop (i + 1) := by
      rw [← List.drop_eq_getElem_cons hi, List.take_append_drop]
    have hcrc_p : crc16_x25 p = crc16_x25 (p.take i ++ p[i] :: p.drop (i + 1)) :=
      congrArg crc16_x25 hp
    rw [List.set_eq_take_cons_drop b' hi]
    intro h
    exact crc16_x25_one_byte (p.take i) (p.drop (i + 1)) p[i] b'
      (flipped_byte_ne p i j b' hi hb) (h.trans hcrc_p)
  refine ⟨hne, ?_⟩
  intro lay c hdata hcrc hvalid
  have h := readFrame_valid_crc lay c hvalid
  rw [hdata, hcrc] at h
  exact hne h

/-- The trailer of `frame_A_flipped` is still the CRC of the original payload. -/
theorem frame_A_flipped_trailer :
    frame_crc bota_layout (comm_synced_flipped.serial.take (sizeofFrame bota_layout))
      = crc16_x25 payload_A := by
  rw [payload_A_crc]
  decide

/-- Witness for C17: bit 0 of byte 12 of the scenario A payload is flipped
(0x50 becomes 0x51); the CRC changes and the frame is not VALID_FRAME. -/
theorem crc16_x25_single_bit_detected_witness :
    12 < payload_A.length ∧
    (0x51 : Byte).val = byteAt payload_A 12 ^^^ 2 ^ 0 ∧
    crc16_x25 (payload_A.set 12 0x51) ≠ crc16_x25 payload_A ∧
    (readFrame bota_layout comm_synced_flipped).1 ≠ ReadFrameRes.VALID_FRAME :=
  have h := crc16_x25_single_bit_detected payload_A 12 0 0x51 (by decide) (by decide)
    (by decide)
  ⟨by decide, by decide, h.1,
   h.2 bota_layout comm_synced_flipped (by decide) frame_A_flipped_trailer⟩

end BotaSys











